import Mathlib

/-
Verification of the meetup-planner location pipeline
(`src/notebook/supervisor_subagent.py`).

The embedding models the framework-independent core: postal-code
normalization, the geocoder `postcode_to_latlon`, the pure midpoint
calculator `midpoint_latlon`, the reverse resolver `latlong_to_area`,
the orchestration tool `find_area`, and the read-only search tools.
Remote HTTP responses are modelled as explicit data passed in through an
environment record `Env`; a `none` response models a failure of the
network call itself (an exception out of `requests.get`).  Python floats
are modelled as rationals `ℚ`; Python's `str.upper` is modelled on the
ASCII range by `Char.toUpper`, which is exact on postcode alphabets.
The source wraps the returned `Command` of `find_area` in `await`; the
embedding returns the command value directly.
-/

namespace Meetup

/-- Errors raised by the Python pipeline.  `transportError` models an
exception raised by `requests.get` itself (timeout, DNS, connection
refused); `keyError k` models Python's `KeyError: k` — a subclass of
`LookupError` — raised by a missing JSON field; `valueError` models the
`ValueError("Reverse lookup failed: ...")` raised by `latlong_to_area`. -/
inductive PyError where
  | transportError : PyError
  | keyError : String → PyError
  | valueError : PyError
  deriving DecidableEq

/-- The nested `result` object of a geocode response: numeric latitude and
longitude fields. -/
structure GeoResult where
  latitude : ℚ
  longitude : ℚ
  deriving DecidableEq

/-- A JSON body answered by the forward geocode endpoint
`GET /postcodes/{postcode}`: a status field and an optional `result`
object (`none` models an absent field, as in the service's error
responses). -/
structure GeoJson where
  status : ℕ
  result : Option GeoResult
  deriving DecidableEq

/-- One entry of the reverse-lookup result list, carrying the fields the
code extracts. -/
structure RevRecord where
  postcode : String
  admin_district : String
  region : String
  deriving DecidableEq

/-- A JSON body answered by the reverse endpoint
`GET /postcodes?lon=..&lat=..&radius=2000&limit=1`.  `status` is optional
because the code reads it with `data.get("status")`; `result = []` models
both an absent and an empty result list (both falsy under
`not data.get("result")`). -/
structure RevJson where
  status : Option ℕ
  result : List RevRecord
  deriving DecidableEq

/-- The dict returned by `latlong_to_area`. -/
structure AreaDescriptor where
  postcode : String
  district : String
  region : String
  deriving DecidableEq

/-- The external world as the pipeline observes it: the two HTTP
endpoints (`none` = the network call itself fails) and the two
LLM sub-agents, each mapping the query message to the content of the
final response message.  `revGet` takes longitude first, matching the
URL query order `?lon=..&lat=..`. -/
structure Env where
  geoGet : String → Option GeoJson
  revGet : ℚ → ℚ → Option RevJson
  foodAgent : String → String
  activityAgent : String → String

/-- Postal-code normalization as applied by `find_area`:
`p.replace(" ", "").upper()` — drop space characters, then upper-case
(ASCII model of `str.upper`). -/
def normalize (s : String) : String :=
  ⟨(s.data.filter (fun c => c ≠ ' ')).map Char.toUpper⟩

/-- `postcode_to_latlon`: `requests.get(url).json()["result"]` followed by
`r["latitude"], r["longitude"]`.  The subscript on a missing `result`
field raises `KeyError`; the status field of the response is never
inspected. -/
def postcode_to_latlon (env : Env) (postcode : String) :
    Except PyError (ℚ × ℚ) :=
  match env.geoGet postcode with
  | none => .error .transportError
  | some data =>
    match data.result with
    | none => .error (.keyError "result")
    | some r => .ok (r.latitude, r.longitude)

/-- `midpoint_latlon`: the pure midpoint calculator,
`((lat1+lat2)/2, (long1+long2)/2)`. -/
def midpoint_latlon (lat1 long1 lat2 long2 : ℚ) : ℚ × ℚ :=
  ((lat1 + lat2) / 2, (long1 + long2) / 2)

/-- `latlong_to_area`: reverse lookup.  Raises
`ValueError("Reverse lookup failed: ...")` when
`data.get("status") != 200 or not data.get("result")`, otherwise returns
the dict built from the first result entry. -/
def latlong_to_area (env : Env) (lat long : ℚ) :
    Except PyError AreaDescriptor :=
  match env.revGet long lat with
  | none => .error .transportError
  | some data =>
    if data.status ≠ some 200 ∨ data.result = [] then
      .error .valueError
    else
      match data.result with
      | [] => .error .valueError   -- unreachable under the guard above
      | r :: _ =>
        .ok { postcode := r.postcode, district := r.admin_district,
              region := r.region }

/-- The `Command(update={...})` proposal built by `find_area`:
the two normalized postcodes, the resolved district, and the
`ToolMessage` content. -/
structure CommandUpdate where
  person_1_postcode : String
  person_2_postcode : String
  midpoint_area : String
  message : String
  deriving DecidableEq

/-- `find_area`: normalize both raw postcodes, geocode person 1 then
person 2, compute the midpoint, reverse-resolve it, and propose the state
update.  Any exception in a step propagates and no `Command` is built. -/
def find_area (env : Env) (person_1_postcode person_2_postcode : String) :
    Except PyError CommandUpdate :=
  match postcode_to_latlon env (normalize person_1_postcode) with
  | .error e => .error e
  | .ok (lat1, lon1) =>
    match postcode_to_latlon env (normalize person_2_postcode) with
    | .error e => .error e
    | .ok (lat2, lon2) =>
      match latlong_to_area env (midpoint_latlon lat1 lon1 lat2 lon2).1
          (midpoint_latlon lat1 lon1 lat2 lon2).2 with
      | .error e => .error e
      | .ok area =>
        .ok { person_1_postcode := normalize person_1_postcode,
              person_2_postcode := normalize person_2_postcode,
              midpoint_area := area.district,
              message := "Saved midpoint area" }

/-- The shared `MeetUpState` schema (its five string fields; the message
list is owned by the runtime). -/
structure MeetUpState where
  person_1_postcode : String
  person_2_postcode : String
  midpoint_area : String
  food_place : String
  activity_place : String
  deriving DecidableEq

/-- `search_food`: read `midpoint_area` from the shared state, build the
query, invoke the food agent and return the final message content. -/
def search_food (env : Env) (st : MeetUpState) : String :=
  env.foodAgent ("Find the top 3 suitable food spots within " ++ st.midpoint_area)

/-- `search_activity`: read `midpoint_area` from the shared state, build
the query, invoke the activity agent and return the final message
content. -/
def search_activity (env : Env) (st : MeetUpState) : String :=
  env.activityAgent ("Find the top 3 suitable activities within " ++ st.midpoint_area)

/-- The `Command(update={...})` proposal built by `update_state`: all five
state fields plus the `ToolMessage` content. -/
structure FullStateUpdate where
  person_1_postcode : String
  person_2_postcode : String
  midpoint_area : String
  food_place : String
  activity_place : String
  message : String
  deriving DecidableEq

/-- `update_state`: propose a state update carrying exactly the five
given values. -/
def update_state (person_1_postcode person_2_postcode midpoint_area
    food_place activity_place : String) : FullStateUpdate :=
  { person_1_postcode := person_1_postcode,
    person_2_postcode := person_2_postcode,
    midpoint_area := midpoint_area,
    food_place := food_place,
    activity_place := activity_place,
    message := "Successfully updated state" }

/-- The mocked geocoder of the spec's pipeline test:
`"SW1A1AA" ↦ (51.5, -0.1)` and `"E11HJ" ↦ (51.52, -0.12)`; every other
postcode fails at transport. -/
def geoMock : String → Option GeoJson := fun p =>
  if p = "SW1A1AA" then
    some { status := 200, result := some { latitude := 51.5, longitude := -0.1 } }
  else if p = "E11HJ" then
    some { status := 200, result := some { latitude := 51.52, longitude := -0.12 } }
  else none

/-- A world where both geocodes succeed and the reverse endpoint answers
only at the expected midpoint `(51.51, -0.11)` — so a successful pipeline
run certifies the exact coordinates the reverse lookup was invoked
with. -/
def envMock : Env where
  geoGet := geoMock
  revGet := fun long lat =>
    if lat = 51.51 ∧ long = -0.11 then
      some { status := some 200,
             result := [{ postcode := "EC1A1BB", admin_district := "Islington",
                          region := "London" }] }
    else none
  foodAgent := fun q => "food: " ++ q
  activityAgent := fun q => "activity: " ++ q

/-- A world where both geocodes succeed but the reverse endpoint reports
a non-success status. -/
def envRevDown : Env where
  geoGet := geoMock
  revGet := fun _ _ => some { status := some 500, result := [] }
  foodAgent := fun _ => ""
  activityAgent := fun _ => ""

/-- A world where the reverse endpoint answers status 200 with an empty
result list. -/
def envRevEmpty : Env where
  geoGet := fun _ => none
  revGet := fun _ _ => some { status := some 200, result := [] }
  foodAgent := fun _ => ""
  activityAgent := fun _ => ""

/-- A world whose geocode endpoint answers a non-success status `404`
while still carrying a `result` object. -/
def envStatus404 : Env where
  geoGet := fun _ =>
    some { status := 404, result := some { latitude := 51.5, longitude := -0.1 } }
  revGet := fun _ _ => none
  foodAgent := fun _ => ""
  activityAgent := fun _ => ""

/-- A world whose reverse endpoint answers a well-formed record with all
three fields empty. -/
def envBlankFields : Env where
  geoGet := fun _ => none
  revGet := fun _ _ =>
    some { status := some 200,
           result := [{ postcode := "", admin_district := "", region := "" }] }
  foodAgent := fun _ => ""
  activityAgent := fun _ => ""

/-- A concrete shared state. -/
def stA : MeetUpState :=
  { person_1_postcode := "SW1A1AA", person_2_postcode := "E11HJ",
    midpoint_area := "Islington", food_place := "", activity_place := "" }

/-- A second concrete shared state, agreeing with `stA` only on
`midpoint_area`. -/
def stB : MeetUpState :=
  { person_1_postcode := "N16AA", person_2_postcode := "SE15RT",
    midpoint_area := "Islington", food_place := "pizza", activity_place := "bowling" }

/-! ## Helper lemmas -/

lemma toNat_ofNat_valid (n : Nat) (h : n < 55296) : (Char.ofNat n).toNat = n := by
  unfold Char.ofNat
  rw [dif_pos (Or.inl h)]
  rfl

lemma toUpper_idem (c : Char) : (c.toUpper).toUpper = c.toUpper := by
  unfold Char.toUpper
  by_cases h : c.toNat ≥ 97 ∧ c.toNat ≤ 122
  · rw [if_pos h]
    have hv : c.toNat - 32 < 55296 := by omega
    rw [if_neg]
    rw [toNat_ofNat_valid _ hv]
    omega
  · rw [if_neg h, if_neg h]

lemma space_toNat : (' ' : Char).toNat = 32 := rfl

lemma toUpper_ne_space (c : Char) (h : c ≠ ' ') : c.toUpper ≠ ' ' := by
  unfold Char.toUpper
  by_cases hc : c.toNat ≥ 97 ∧ c.toNat ≤ 122
  · rw [if_pos hc]
    intro heq
    have h2 : (Char.ofNat (c.toNat - 32)).toNat = (' ' : Char).toNat := by rw [heq]
    rw [toNat_ofNat_valid _ (by omega), space_toNat] at h2
    omega
  · rw [if_neg hc]; exact h

lemma normalize_normalize (s : String) : normalize (normalize s) = normalize s := by
  unfold normalize
  congr 1
  rw [List.filter_map]
  have h1 : (s.data.filter (fun c => c ≠ ' ')).filter
        ((fun c => decide (c ≠ ' ')) ∘ Char.toUpper)
      = s.data.filter (fun c => c ≠ ' ') := by
    apply List.filter_eq_self.mpr
    intro c hc
    simp only [Function.comp_apply, decide_eq_true_eq]
    exact toUpper_ne_space c (by simpa using (List.mem_filter.mp hc).2)
  rw [h1, List.map_map]
  apply List.map_congr_left
  intro c _
  exact toUpper_idem c

lemma normalize_fixed_upper (s : String) :
    (normalize s).data.map Char.toUpper = (normalize s).data := by
  unfold normalize
  rw [List.map_map]
  apply List.map_congr_left
  intro c _
  exact toUpper_idem c

lemma normalize_space_free (s : String) : ' ' ∉ (normalize s).data := by
  unfold normalize
  intro h
  simp only [List.mem_map, List.mem_filter, decide_eq_true_eq] at h
  obtain ⟨c, ⟨_, hne⟩, heq⟩ := h
  exact toUpper_ne_space c hne heq

lemma latlong_to_area_some (env : Env) (lat long : ℚ) (data : RevJson)
    (h : env.revGet long lat = some data) :
    latlong_to_area env lat long =
      if data.status ≠ some 200 ∨ data.result = [] then
        .error .valueError
      else
        match data.result with
        | [] => .error .valueError
        | r :: _ =>
          .ok { postcode := r.postcode, district := r.admin_district,
                region := r.region } := by
  unfold latlong_to_area
  rw [h]

lemma find_area_error1 (env : Env) (pa pb : String) (e : PyError)
    (h : postcode_to_latlon env (normalize pa) = .error e) :
    find_area env pa pb = .error e := by
  unfold find_area
  rw [h]

lemma find_area_error2 (env : Env) (pa pb : String) (lat1 lon1 : ℚ) (e : PyError)
    (h1 : postcode_to_latlon env (normalize pa) = .ok (lat1, lon1))
    (h2 : postcode_to_latlon env (normalize pb) = .error e) :
    find_area env pa pb = .error e := by
  unfold find_area
  rw [h1, h2]

lemma find_area_error3 (env : Env) (pa pb : String) (lat1 lon1 lat2 lon2 : ℚ)
    (e : PyError)
    (h1 : postcode_to_latlon env (normalize pa) = .ok (lat1, lon1))
    (h2 : postcode_to_latlon env (normalize pb) = .ok (lat2, lon2))
    (h3 : latlong_to_area env (midpoint_latlon lat1 lon1 lat2 lon2).1
        (midpoint_latlon lat1 lon1 lat2 lon2).2 = .error e) :
    find_area env pa pb = .error e := by
  unfold find_area
  rw [h1, h2]
  simp only [h3]

lemma find_area_ok_eq (env : Env) (pa pb : String) (lat1 lon1 lat2 lon2 : ℚ)
    (area : AreaDescriptor)
    (h1 : postcode_to_latlon env (normalize pa) = .ok (lat1, lon1))
    (h2 : postcode_to_latlon env (normalize pb) = .ok (lat2, lon2))
    (h3 : latlong_to_area env (midpoint_latlon lat1 lon1 lat2 lon2).1
        (midpoint_latlon lat1 lon1 lat2 lon2).2 = .ok area) :
    find_area env pa pb =
      .ok { person_1_postcode := normalize pa, person_2_postcode := normalize pb,
            midpoint_area := area.district, message := "Saved midpoint area" } := by
  unfold find_area
  rw [h1, h2]
  simp only [h3]

lemma find_area_ok_inv (env : Env) (pa pb : String) (cmd : CommandUpdate)
    (h : find_area env pa pb = .ok cmd) :
    ∃ c1 c2 area, postcode_to_latlon env (normalize pa) = .ok c1 ∧
      postcode_to_latlon env (normalize pb) = .ok c2 ∧
      latlong_to_area env (midpoint_latlon c1.1 c1.2 c2.1 c2.2).1
        (midpoint_latlon c1.1 c1.2 c2.1 c2.2).2 = .ok area ∧
      cmd = { person_1_postcode := normalize pa,
              person_2_postcode := normalize pb,
              midpoint_area := area.district,
              message := "Saved midpoint area" } := by
  cases hA : postcode_to_latlon env (normalize pa) with
  | error e => rw [find_area_error1 env pa pb e hA] at h; exact absurd h (by simp)
  | ok c1 =>
    obtain ⟨lat1, lon1⟩ := c1
    cases hB : postcode_to_latlon env (normalize pb) with
    | error e =>
      rw [find_area_error2 env pa pb lat1 lon1 e hA hB] at h
      exact absurd h (by simp)
    | ok c2 =>
      obtain ⟨lat2, lon2⟩ := c2
      cases hC : latlong_to_area env (midpoint_latlon lat1 lon1 lat2 lon2).1
          (midpoint_latlon lat1 lon1 lat2 lon2).2 with
      | error e =>
        rw [find_area_error3 env pa pb lat1 lon1 lat2 lon2 e hA hB hC] at h
        exact absurd h (by simp)
      | ok area =>
        rw [find_area_ok_eq env pa pb lat1 lon1 lat2 lon2 area hA hB hC] at h
        exact ⟨(lat1, lon1), (lat2, lon2), area, rfl, rfl, hC,
          (Except.ok.inj h).symm⟩

lemma find_area_norm_congr (env : Env) (a b other : String)
    (h : normalize a = normalize b) :
    find_area env a other = find_area env b other ∧
    find_area env other a = find_area env other b := by
  constructor
  · unfold find_area
    rw [h]
  · unfold find_area
    rw [h]

/-! ## Claim theorems -/

/-- Claim C1: for every two coordinate pairs `(lat1, lon1)` and
`(lat2, lon2)`, `midpoint_latlon` returns exactly
`((lat1+lat2)/2, (lon1+lon2)/2)`, with no rounding, normalization, or
other adjustment. -/
theorem midpoint_exact (lat1 lon1 lat2 lon2 : ℚ) :
    midpoint_latlon lat1 lon1 lat2 lon2 =
      ((lat1 + lat2) / 2, (lon1 + lon2) / 2) := rfl

/-- Claim C6: the midpoint calculator is commutative,
`midpoint(A, B) = midpoint(B, A)`. -/
theorem midpoint_comm (lat1 lon1 lat2 lon2 : ℚ) :
    midpoint_latlon lat1 lon1 lat2 lon2 = midpoint_latlon lat2 lon2 lat1 lon1 := by
  unfold midpoint_latlon
  rw [add_comm lat1 lat2, add_comm lon1 lon2]

/-- Claim C7: the postal-code normalization applied by `find_area` is
idempotent, and concretely
`normalize "sw1a 1aa" = normalize "SW1A1AA" = "SW1A1AA"`. -/
theorem normalize_idempotent :
    (∀ s : String, normalize (normalize s) = normalize s) ∧
    normalize "sw1a 1aa" = "SW1A1AA" ∧ normalize "SW1A1AA" = "SW1A1AA" :=
  ⟨normalize_normalize, by decide, by decide⟩

/-- Claim C2: if any of the three pipeline steps fails — geocoding either
postcode, or reverse-resolving the midpoint — the whole `find_area`
invocation aborts with that single failure and no state-update proposal;
conversely a proposal is produced only when every step succeeded, and it
is the full update (both normalized postcodes together with the resolved
district, never a partial one). -/
theorem find_area_atomic (env : Env) (pa pb : String) :
    (∀ e, postcode_to_latlon env (normalize pa) = .error e →
      find_area env pa pb = .error e) ∧
    (∀ lat1 lon1 e, postcode_to_latlon env (normalize pa) = .ok (lat1, lon1) →
      postcode_to_latlon env (normalize pb) = .error e →
      find_area env pa pb = .error e) ∧
    (∀ lat1 lon1 lat2 lon2 e,
      postcode_to_latlon env (normalize pa) = .ok (lat1, lon1) →
      postcode_to_latlon env (normalize pb) = .ok (lat2, lon2) →
      latlong_to_area env (midpoint_latlon lat1 lon1 lat2 lon2).1
        (midpoint_latlon lat1 lon1 lat2 lon2).2 = .error e →
      find_area env pa pb = .error e) ∧
    (∀ cmd, find_area env pa pb = .ok cmd →
      ∃ c1 c2 area, postcode_to_latlon env (normalize pa) = .ok c1 ∧
        postcode_to_latlon env (normalize pb) = .ok c2 ∧
        latlong_to_area env (midpoint_latlon c1.1 c1.2 c2.1 c2.2).1
          (midpoint_latlon c1.1 c1.2 c2.1 c2.2).2 = .ok area ∧
        cmd = { person_1_postcode := normalize pa,
                person_2_postcode := normalize pb,
                midpoint_area := area.district,
                message := "Saved midpoint area" }) :=
  ⟨fun e h => find_area_error1 env pa pb e h,
   fun lat1 lon1 e h1 h2 => find_area_error2 env pa pb lat1 lon1 e h1 h2,
   fun lat1 lon1 lat2 lon2 e h1 h2 h3 =>
     find_area_error3 env pa pb lat1 lon1 lat2 lon2 e h1 h2 h3,
   fun cmd h => find_area_ok_inv env pa pb cmd h⟩

/-- Witness for C2: in the world `envRevDown` both geocodes succeed but
the reverse endpoint reports status 500, and the whole invocation aborts
with the single `ValueError` and no proposal. -/
theorem find_area_atomic_witness :
    find_area envRevDown "SW1A1AA" "E11HJ" = .error .valueError :=
  (find_area_atomic envRevDown "SW1A1AA" "E11HJ").2.2.1
    51.5 (-0.1) 51.52 (-0.12) .valueError rfl rfl rfl

/-- Claim C3: `latlong_to_area` fails with the same failure kind
(`ValueError`, the spec's ResolutionError) whenever the response status
is not success or the result list is empty — in particular an empty
result list under status 200 — and then yields no `AreaDescriptor`. -/
theorem latlong_to_area_failure (env : Env) (lat long : ℚ) (data : RevJson)
    (hresp : env.revGet long lat = some data)
    (hfail : data.status ≠ some 200 ∨ data.result = []) :
    latlong_to_area env lat long = .error .valueError := by
  rw [latlong_to_area_some env lat long data hresp, if_pos hfail]

/-- Witness for C3: a status-200 response with an empty result list is
rejected with the `ValueError`. -/
theorem latlong_to_area_failure_witness :
    latlong_to_area envRevEmpty 51.51 (-0.11) = .error .valueError :=
  latlong_to_area_failure envRevEmpty 51.51 (-0.11)
    { status := some 200, result := [] } rfl (Or.inr rfl)

/-- Claim C4 counterexample: the geocoder never inspects the status
field, so a response carrying the non-success status 404 together with a
result object is returned successfully instead of failing with a
LookupError. -/
theorem postcode_status_not_checked :
    envStatus404.geoGet "SW1A1AA" =
      some { status := 404, result := some { latitude := 51.5, longitude := -0.1 } } ∧
    (404 : ℕ) ≠ 200 ∧
    postcode_to_latlon envStatus404 "SW1A1AA" = .ok (51.5, -0.1) :=
  ⟨rfl, by decide, rfl⟩

/-- Claim C4 (amended): the geocoder fails with `KeyError "result"` — a
Python `LookupError` — exactly when the response omits the `result`
field, fails with a transport error when the network call itself cannot
complete, and otherwise returns the coordinates without inspecting the
status field; neither failure is retried or transformed. -/
theorem postcode_to_latlon_errors (env : Env) (p : String) :
    (env.geoGet p = none → postcode_to_latlon env p = .error .transportError) ∧
    (∀ data, env.geoGet p = some data → data.result = none →
      postcode_to_latlon env p = .error (.keyError "result")) ∧
    (∀ data r, env.geoGet p = some data → data.result = some r →
      postcode_to_latlon env p = .ok (r.latitude, r.longitude)) := by
  refine ⟨fun h => ?_, fun data h hr => ?_, fun data r h hr => ?_⟩
  · unfold postcode_to_latlon
    rw [h]
  · unfold postcode_to_latlon
    rw [h]
    simp only [hr]
  · unfold postcode_to_latlon
    rw [h]
    simp only [hr]

/-- Witness for C4 (amended): a transport failure and a normal return. -/
theorem postcode_to_latlon_errors_witness :
    postcode_to_latlon envRevEmpty "SW1A1AA" = .error .transportError ∧
    postcode_to_latlon envStatus404 "E11HJ" = .ok (51.5, -0.1) :=
  ⟨(postcode_to_latlon_errors envRevEmpty "SW1A1AA").1 rfl,
   (postcode_to_latlon_errors envStatus404 "E11HJ").2.2
     { status := 404, result := some { latitude := 51.5, longitude := -0.1 } }
     { latitude := 51.5, longitude := -0.1 } rfl rfl⟩

/-- Claim C5: with the mocked geocoder of `envMock`, the pipeline
geocodes `"SW1A1AA"` to `(51.5, -0.1)` and `"E11HJ"` to `(51.52, -0.12)`,
feeds exactly those two pairs in that order to the midpoint calculator,
obtains exactly `(51.51, -0.11)`, and reverse-resolves precisely that
point (the mocked reverse endpoint answers only there). -/
theorem pipeline_mocked_midpoint :
    postcode_to_latlon envMock "SW1A1AA" = .ok (51.5, -0.1) ∧
    postcode_to_latlon envMock "E11HJ" = .ok (51.52, -0.12) ∧
    midpoint_latlon 51.5 (-0.1) 51.52 (-0.12) = (51.51, -0.11) ∧
    find_area envMock "SW1A1AA" "E11HJ" =
      .ok { person_1_postcode := "SW1A1AA", person_2_postcode := "E11HJ",
            midpoint_area := "Islington", message := "Saved midpoint area" } := by
  have hn1 : normalize "SW1A1AA" = "SW1A1AA" := by decide
  have hn2 : normalize "E11HJ" = "E11HJ" := by decide
  have hm : midpoint_latlon 51.5 (-0.1) 51.52 (-0.12) = (51.51, -0.11) := by
    unfold midpoint_latlon
    norm_num
  have e1 : postcode_to_latlon envMock (normalize "SW1A1AA") = .ok (51.5, -0.1) := by
    rw [hn1]
    rfl
  have e2 : postcode_to_latlon envMock (normalize "E11HJ") = .ok (51.52, -0.12) := by
    rw [hn2]
    rfl
  have e3 : latlong_to_area envMock (midpoint_latlon 51.5 (-0.1) 51.52 (-0.12)).1
      (midpoint_latlon 51.5 (-0.1) 51.52 (-0.12)).2 =
      .ok { postcode := "EC1A1BB", district := "Islington", region := "London" } := by
    rw [hm]
    simp [latlong_to_area, envMock]
  have hfind := find_area_ok_eq envMock "SW1A1AA" "E11HJ" 51.5 (-0.1) 51.52 (-0.12)
    { postcode := "EC1A1BB", district := "Islington", region := "London" } e1 e2 e3
  rw [hn1, hn2] at hfind
  exact ⟨hn1 ▸ e1, hn2 ▸ e2, hm, hfind⟩

/-- Claim C8 counterexample: normalization removes only the space
character, not all whitespace — a tab survives it. -/
theorem normalize_whitespace_cex :
    normalize "sw1a\t1aa" = "SW1A\t1AA" ∧
    '\t' ∈ (normalize "sw1a\t1aa").data ∧
    Char.isWhitespace '\t' = true :=
  ⟨by decide, by decide, by decide⟩

/-- Claim C8 (amended): normalization removes every space character
(`' '`) and upper-cases the result — the normalized string is a fixed
point of upper-casing — and raw inputs that normalize identically are
treated identically by `find_area` in either argument position. -/
theorem normalize_behaviour (s : String) :
    ' ' ∉ (normalize s).data ∧
    (normalize s).data.map Char.toUpper = (normalize s).data ∧
    (∀ env other a b, normalize a = normalize b →
      find_area env a other = find_area env b other ∧
      find_area env other a = find_area env other b) :=
  ⟨normalize_space_free s, normalize_fixed_upper s,
   fun env other a b h => find_area_norm_congr env a b other h⟩

/-- Witness for C8 (amended): `"sw1a 1aa"` and `"SW1A1AA"` normalize
identically and are interchangeable inputs to `find_area`. -/
theorem normalize_behaviour_witness :
    find_area envMock "sw1a 1aa" "E11HJ" = find_area envMock "SW1A1AA" "E11HJ" :=
  ((normalize_behaviour "x").2.2 envMock "E11HJ" "sw1a 1aa" "SW1A1AA" (by decide)).1

/-- Claim C9 counterexample: `latlong_to_area` performs no non-emptiness
validation — a well-formed status-200 response whose first record has
empty fields yields an `AreaDescriptor` whose fields are all empty. -/
theorem area_fields_not_validated :
    latlong_to_area envBlankFields 51.51 (-0.11) =
      .ok { postcode := "", district := "", region := "" } ∧
    ("" : String).length = 0 :=
  ⟨rfl, rfl⟩

/-- Claim C9 (amended): whenever `latlong_to_area` returns an
`AreaDescriptor`, its fields are copied verbatim from the first entry of
the status-200 remote result list — so they are non-empty exactly when
the remote record's fields are, no validation being applied. -/
theorem latlong_to_area_verbatim (env : Env) (lat long : ℚ) (d : AreaDescriptor)
    (h : latlong_to_area env lat long = .ok d) :
    ∃ data r rest, env.revGet long lat = some data ∧
      data.status = some 200 ∧ data.result = r :: rest ∧
      d = { postcode := r.postcode, district := r.admin_district,
            region := r.region } := by
  cases hresp : env.revGet long lat with
  | none =>
    unfold latlong_to_area at h
    rw [hresp] at h
    exact absurd h (by simp)
  | some data =>
    rw [latlong_to_area_some env lat long data hresp] at h
    by_cases hcond : data.status ≠ some 200 ∨ data.result = []
    · rw [if_pos hcond] at h
      exact absurd h (by simp)
    · rw [if_neg hcond] at h
      push_neg at hcond
      obtain ⟨hstat, hres⟩ := hcond
      cases hlist : data.result with
      | nil => exact absurd hlist hres
      | cons r rest =>
        rw [hlist] at h
        exact ⟨data, r, rest, rfl, hstat, hlist, (Except.ok.inj h).symm⟩

/-- Witness for C9 (amended): the verbatim-copy property applied in the
world with blank remote fields. -/
theorem latlong_to_area_verbatim_witness :
    ∃ data r rest, envBlankFields.revGet (-0.11) 51.51 = some data ∧
      data.status = some 200 ∧ data.result = r :: rest ∧
      ({ postcode := "", district := "", region := "" } : AreaDescriptor) =
        { postcode := r.postcode, district := r.admin_district,
          region := r.region } :=
  latlong_to_area_verbatim envBlankFields 51.51 (-0.11)
    { postcode := "", district := "", region := "" } rfl

/-- Claim C10: `search_food` and `search_activity` only read
`midpoint_area` from the shared state and return the sub-agent's answer
string, proposing no state update — two states agreeing on
`midpoint_area` are indistinguishable to them — while `update_state`
proposes exactly the five given values. -/
theorem search_tools_read_only (env : Env) (st : MeetUpState) :
    search_food env st =
      env.foodAgent ("Find the top 3 suitable food spots within " ++ st.midpoint_area) ∧
    search_activity env st =
      env.activityAgent ("Find the top 3 suitable activities within " ++ st.midpoint_area) ∧
    (∀ st2 : MeetUpState, st.midpoint_area = st2.midpoint_area →
      search_food env st = search_food env st2 ∧
      search_activity env st = search_activity env st2) ∧
    (∀ a b c d e, update_state a b c d e =
      { person_1_postcode := a, person_2_postcode := b, midpoint_area := c,
        food_place := d, activity_place := e,
        message := "Successfully updated state" }) := by
  refine ⟨rfl, rfl, fun st2 h => ?_, fun a b c d e => rfl⟩
  constructor
  · unfold search_food
    rw [h]
  · unfold search_activity
    rw [h]

/-- Witness for C10: two states agreeing only on `midpoint_area` give the
same search results. -/
theorem search_tools_read_only_witness :
    search_food envMock stA = search_food envMock stB ∧
    search_activity envMock stA = search_activity envMock stB :=
  (search_tools_read_only envMock stA).2.2.1 stB (by decide)

end Meetup
